import Mathlib

/-!
Verification of the matching-platform backend core: the in-memory store
(users, swipes, matches), the discovery-feed generator (three-tier filter
pipeline in `internal/services/feed_service.go`), and the swipe processor
with bidirectional match detection (`SwipeService.ProcessSwipe`).

The embedding is shallow: user identifiers (Go `uuid.UUID`) become `Nat`,
Go's `time.Time` becomes a `Nat` tick passed explicitly where the code
calls `time.Now()`, the `map[uuid.UUID]models.User` becomes a list with
overwrite-by-id semantics, and Go's `(value, error)` returns become
`Except` values.  Errors are a sum type with one constructor per Go error
shape: `*services.NotFoundError`, `*services.ValidationError`, and the
plain error produced by `fmt.Errorf`.
-/

namespace TinderSpec

/-- Go `uuid.UUID`, modelled as an opaque natural number. -/
abbrev UUID := Nat

/-- Go `models.SwipeAction` is a string-backed enum. -/
abbrev SwipeAction := String

/-- `models.SwipeActionLike = "LIKE"`. -/
def SwipeActionLike : SwipeAction := "LIKE"

/-- `models.SwipeActionPass = "PASS"`. -/
def SwipeActionPass : SwipeAction := "PASS"

/-- `models.User`: id, name, age, gender tag, zone identifier. -/
structure User where
  id : UUID
  name : String
  age : Int
  gender : String
  zoneID : String
deriving DecidableEq

/-- `models.Swipe`: a directed, timestamped edge with an action tag. -/
structure Swipe where
  swiperID : UUID
  swipedID : UUID
  action : SwipeAction
  timestamp : Nat
deriving DecidableEq

/-- `models.Match`: an ordered pair of user identifiers plus a timestamp. -/
structure Match where
  user1ID : UUID
  user2ID : UUID
  timestamp : Nat
deriving DecidableEq

/-- `store.InMemoryStore`: all users (a map keyed by id, modelled as a list
with unique-key overwrite semantics), the chronological swipe log, and the
chronological match log. -/
structure InMemoryStore where
  users : List User
  swipes : List Swipe
  matchList : List Match
deriving DecidableEq

/-- The freshly initialized store (`defaultStore` before any operation). -/
def emptyStore : InMemoryStore := ⟨[], [], []⟩

/-- Go map assignment `s.users[user.ID] = user` on the list model: replace
the entry with the same key if one exists, otherwise add the entry. -/
def putUserList (us : List User) (u : User) : List User :=
  if us.any (fun v => v.id == u.id) then
    us.map (fun v => if v.id == u.id then u else v)
  else
    us ++ [u]

/-- `InMemoryStore.AddUser`: insert or overwrite the entry keyed by the
user's identifier. -/
def AddUser (s : InMemoryStore) (u : User) : InMemoryStore :=
  { s with users := putUserList s.users u }

/-- `InMemoryStore.GetUser`: the comma-ok map lookup, `none` when the
identifier is unknown. -/
def GetUser (s : InMemoryStore) (id : UUID) : Option User :=
  s.users.find? (fun u => u.id == id)

/-- `InMemoryStore.GetAllUsers`: a snapshot of all stored users. -/
def GetAllUsers (s : InMemoryStore) : List User :=
  s.users

/-- `InMemoryStore.AddSwipe`: append to the chronological swipe log. -/
def AddSwipe (s : InMemoryStore) (sw : Swipe) : InMemoryStore :=
  { s with swipes := s.swipes ++ [sw] }

/-- `InMemoryStore.GetSwipesByUser`: all swipes where the given user is the
swiper, in append order. -/
def GetSwipesByUser (s : InMemoryStore) (userID : UUID) : List Swipe :=
  s.swipes.filter (fun sw => sw.swiperID == userID)

/-- `InMemoryStore.FindSwipe`: first swipe of the given direction by linear
scan in append order, `none` when no such swipe exists. -/
def FindSwipe (s : InMemoryStore) (swiperID swipedID : UUID) : Option Swipe :=
  s.swipes.find? (fun sw => sw.swiperID == swiperID && sw.swipedID == swipedID)

/-- `InMemoryStore.AddMatch`: append to the chronological match log. -/
def AddMatch (s : InMemoryStore) (m : Match) : InMemoryStore :=
  { s with matchList := s.matchList ++ [m] }

/-- `InMemoryStore.GetMatchesForUser`: all matches where the identifier
appears on either side, in append order. -/
def GetMatchesForUser (s : InMemoryStore) (userID : UUID) : List Match :=
  s.matchList.filter (fun m => m.user1ID == userID || m.user2ID == userID)

/-- `InMemoryStore.Reset`: discard all three collections, returning the
store to its empty initial state. -/
def Reset (_ : InMemoryStore) : InMemoryStore :=
  emptyStore

/-- The error values the service layer can return. `notFound` embeds
`*services.NotFoundError`, `validation` embeds `*services.ValidationError`,
and `basic` embeds the untyped error built by `fmt.Errorf` (which is
neither of the two custom error types). -/
inductive ServiceError where
  | notFound (message : String)
  | validation (message : String)
  | basic (message : String)
deriving DecidableEq

/-- `services.ProcessSwipeResult`: the recorded swipe, the match flag, and
the optional match record (`nil` in Go becomes `none`). -/
structure ProcessSwipeResult where
  swipe : Swipe
  matched : Bool
  matchRec : Option Match
deriving DecidableEq

/-- `SwipeService.ProcessSwipe`.  The Go method mutates the shared store;
here the updated store is returned as the second component (unchanged on
every error path, mirroring the early returns before any store write).
`now` stands for `time.Now()`. -/
def ProcessSwipe (s : InMemoryStore) (swiperID swipedID : UUID)
    (action : SwipeAction) (now : Nat) :
    Except ServiceError ProcessSwipeResult × InMemoryStore :=
  if swiperID = swipedID then
    (Except.error (ServiceError.validation "cannot swipe on yourself"), s)
  else
    match GetUser s swiperID with
    | none =>
      (Except.error (ServiceError.notFound
        ("swiper user " ++ toString swiperID ++ " not found")), s)
    | some _ =>
      match GetUser s swipedID with
      | none =>
        (Except.error (ServiceError.notFound
          ("swiped user " ++ toString swipedID ++ " not found")), s)
      | some _ =>
        let swipe : Swipe := ⟨swiperID, swipedID, action, now⟩
        let s1 := AddSwipe s swipe
        if action = SwipeActionLike then
          match FindSwipe s1 swipedID swiperID with
          | some reverseSwipe =>
            if reverseSwipe.action = SwipeActionLike then
              let m : Match := ⟨swiperID, swipedID, now⟩
              (Except.ok ⟨swipe, true, some m⟩, AddMatch s1 m)
            else
              (Except.ok ⟨swipe, false, none⟩, s1)
          | none =>
            (Except.ok ⟨swipe, false, none⟩, s1)
        else
          (Except.ok ⟨swipe, false, none⟩, s1)

/-- `FeedService.GetFeed`: verify the requester exists (failing with the
`fmt.Errorf` error), build the seen set from the requester's swipes, then
filter all users through the zone, self-exclusion and seen-state tiers. -/
def GetFeed (s : InMemoryStore) (userID : UUID) :
    Except ServiceError (List User) :=
  match GetUser s userID with
  | none =>
    Except.error (ServiceError.basic ("user " ++ toString userID ++ " not found"))
  | some requestingUser =>
    let seenSet := (GetSwipesByUser s userID).map (fun sw => sw.swipedID)
    Except.ok ((GetAllUsers s).filter (fun c =>
      c.zoneID == requestingUser.zoneID && c.id != userID &&
        !(seenSet.contains c.id)))

/-- One invocation of a core operation, for reachability statements.
`getFeed` and `matchesForUser` are reads and leave the store unchanged. -/
inductive Op where
  | addUser (u : User)
  | processSwipe (swiperID swipedID : UUID) (action : SwipeAction) (now : Nat)
  | getFeed (userID : UUID)
  | matchesForUser (userID : UUID)
  | reset
deriving DecidableEq

/-- The store that results from one operation. -/
def applyOp (s : InMemoryStore) (op : Op) : InMemoryStore :=
  match op with
  | Op.addUser u => AddUser s u
  | Op.processSwipe a b act now => (ProcessSwipe s a b act now).2
  | Op.getFeed _ => s
  | Op.matchesForUser _ => s
  | Op.reset => Reset s

/-- A store state reachable from the empty store by a sequence of core
operations. -/
def reachable (s : InMemoryStore) : Prop :=
  ∃ ops : List Op, s = ops.foldl applyOp emptyStore

/-- Both directed LIKE swipes behind a match are in the swipe log, and both
participants are in the user collection. -/
def matchSupported (s : InMemoryStore) (m : Match) : Prop :=
  (∃ sw ∈ s.swipes,
    sw.swiperID = m.user1ID ∧ sw.swipedID = m.user2ID ∧ sw.action = SwipeActionLike) ∧
  (∃ sw ∈ s.swipes,
    sw.swiperID = m.user2ID ∧ sw.swipedID = m.user1ID ∧ sw.action = SwipeActionLike) ∧
  (∃ u ∈ s.users, u.id = m.user1ID) ∧
  (∃ u ∈ s.users, u.id = m.user2ID)

instance (s : InMemoryStore) (m : Match) : Decidable (matchSupported s m) := by
  unfold matchSupported; infer_instance

/-- Every match in the store is supported by its two LIKE swipes and its
two participant users. -/
def storeInvariant (s : InMemoryStore) : Prop :=
  ∀ m ∈ s.matchList, matchSupported s m

instance (s : InMemoryStore) : Decidable (storeInvariant s) := by
  unfold storeInvariant; infer_instance

/-! ### Shared concrete scenario data -/

/-- Registered user in zone-a, id 1. -/
def userA : User := ⟨1, "Alice", 25, "other", "zone-a"⟩

/-- Registered user in zone-a, id 2. -/
def userB : User := ⟨2, "Bob", 25, "other", "zone-a"⟩

/-- Registered user in zone-b, id 3. -/
def userC : User := ⟨3, "Charlie", 25, "other", "zone-b"⟩

/-- A store holding exactly `userA` and `userB`, no swipes, no matches. -/
def sAB : InMemoryStore := AddUser (AddUser emptyStore userA) userB

/-- A store holding `userA`, `userB` (zone-a) and `userC` (zone-b). -/
def sABC : InMemoryStore := AddUser sAB userC

/-- Discriminates whether a feed outcome is an error of the typed not-found
kind (`*services.NotFoundError`). -/
def feedErrorIsTypedNotFound (r : Except ServiceError (List User)) : Bool :=
  match r with
  | Except.error (ServiceError.notFound _) => true
  | _ => false

/-- A fourth user in zone-a, used to exercise later-state feeds. -/
def userD : User := ⟨4, "Dana", 25, "other", "zone-a"⟩

/-- The store after B(2) PASSes A(1) and then B LIKEs A: both duplicate
reverse swipes are on record, the PASS first. -/
def sPassThenLike : InMemoryStore :=
  (ProcessSwipe (ProcessSwipe sAB 2 1 SwipeActionPass 0).2
    2 1 SwipeActionLike 1).2

/-- The store after B(2) LIKEs A(1) and then B PASSes A: both duplicate
reverse swipes are on record, the LIKE first. -/
def sLikeThenPass : InMemoryStore :=
  (ProcessSwipe (ProcessSwipe sAB 2 1 SwipeActionLike 0).2
    2 1 SwipeActionPass 1).2

/-! ### Helper lemmas about the store operations -/

theorem GetUser_some_mem {s : InMemoryStore} {id : UUID} {u : User}
    (h : GetUser s id = some u) : u ∈ s.users ∧ u.id = id := by
  unfold GetUser at h
  refine ⟨List.mem_of_find?_eq_some h, ?_⟩
  simpa using List.find?_some h

theorem FindSwipe_some_spec {s : InMemoryStore} {a b : UUID} {sw : Swipe}
    (h : FindSwipe s a b = some sw) :
    sw ∈ s.swipes ∧ sw.swiperID = a ∧ sw.swipedID = b := by
  unfold FindSwipe at h
  have hp := List.find?_some h
  simp only [Bool.and_eq_true, beq_iff_eq] at hp
  exact ⟨List.mem_of_find?_eq_some h, hp.1, hp.2⟩

theorem FindSwipe_eq_none {s : InMemoryStore} {a b : UUID} :
    FindSwipe s a b = none ↔
      ∀ sw ∈ s.swipes, ¬(sw.swiperID = a ∧ sw.swipedID = b) := by
  unfold FindSwipe
  rw [List.find?_eq_none]
  constructor
  · intro h sw hsw hc
    exact h sw hsw (by simp [hc.1, hc.2])
  · intro h sw hsw hc
    simp only [Bool.and_eq_true, beq_iff_eq] at hc
    exact h sw hsw hc

theorem FindSwipe_AddSwipe_of_ne {s : InMemoryStore} {sw : Swipe} {a b : UUID}
    (h : ¬(sw.swiperID = a ∧ sw.swipedID = b)) :
    FindSwipe (AddSwipe s sw) a b = FindSwipe s a b := by
  unfold FindSwipe AddSwipe
  simp only [List.find?_append]
  have hp : (sw.swiperID == a && sw.swipedID == b) = false := by
    rcases Decidable.em (sw.swiperID = a) with h1 | h1
    · rcases Decidable.em (sw.swipedID = b) with h2 | h2
      · exact absurd ⟨h1, h2⟩ h
      · simp [h2]
    · simp [h1]
  cases hf : List.find? (fun x => x.swiperID == a && x.swipedID == b) s.swipes with
  | some w => rfl
  | none => simp [List.find?, hp]

theorem exists_id_putUserList {us : List User} (u : User) {x : UUID}
    (h : ∃ v ∈ us, v.id = x) : ∃ v ∈ putUserList us u, v.id = x := by
  obtain ⟨v, hv, hvx⟩ := h
  unfold putUserList
  split
  · refine ⟨if v.id == u.id then u else v, List.mem_map.mpr ⟨v, hv, rfl⟩, ?_⟩
    rcases Decidable.em (v.id = u.id) with hc | hc
    · rw [if_pos (by simpa using hc), ← hc]
      exact hvx
    · rw [if_neg (by simpa using hc)]
      exact hvx
  · exact ⟨v, List.mem_append_left _ hv, hvx⟩

theorem AddUser_swipes (s : InMemoryStore) (u : User) :
    (AddUser s u).swipes = s.swipes := rfl

/-- Complete case analysis of `ProcessSwipe`: the three error branches and
the two success shapes (with and without a detected match). -/
theorem ProcessSwipe_cases (s : InMemoryStore) (a b : UUID)
    (act : SwipeAction) (now : Nat) :
    (a = b ∧ ProcessSwipe s a b act now =
       (Except.error (ServiceError.validation "cannot swipe on yourself"), s)) ∨
    (a ≠ b ∧ GetUser s a = none ∧ ProcessSwipe s a b act now =
       (Except.error (ServiceError.notFound
         ("swiper user " ++ toString a ++ " not found")), s)) ∨
    (a ≠ b ∧ (∃ ua, GetUser s a = some ua) ∧ GetUser s b = none ∧
       ProcessSwipe s a b act now =
       (Except.error (ServiceError.notFound
         ("swiped user " ++ toString b ++ " not found")), s)) ∨
    (a ≠ b ∧ (∃ ua, GetUser s a = some ua) ∧ (∃ ub, GetUser s b = some ub) ∧
       act = SwipeActionLike ∧
       (∃ rsw, FindSwipe (AddSwipe s ⟨a, b, act, now⟩) b a = some rsw ∧
          rsw.action = SwipeActionLike) ∧
       ProcessSwipe s a b act now =
         (Except.ok ⟨⟨a, b, act, now⟩, true, some ⟨a, b, now⟩⟩,
          AddMatch (AddSwipe s ⟨a, b, act, now⟩) ⟨a, b, now⟩)) ∨
    (a ≠ b ∧ (∃ ua, GetUser s a = some ua) ∧ (∃ ub, GetUser s b = some ub) ∧
       ¬(act = SwipeActionLike ∧
          ∃ rsw, FindSwipe (AddSwipe s ⟨a, b, act, now⟩) b a = some rsw ∧
            rsw.action = SwipeActionLike) ∧
       ProcessSwipe s a b act now =
         (Except.ok ⟨⟨a, b, act, now⟩, false, none⟩,
          AddSwipe s ⟨a, b, act, now⟩)) := by
  by_cases hab : a = b
  · exact Or.inl ⟨hab, by unfold ProcessSwipe; rw [if_pos hab]⟩
  · cases hga : GetUser s a with
    | none =>
      refine Or.inr (Or.inl ⟨hab, rfl, ?_⟩)
      unfold ProcessSwipe
      rw [if_neg hab, hga]
    | some ua =>
      cases hgb : GetUser s b with
      | none =>
        refine Or.inr (Or.inr (Or.inl ⟨hab, ⟨ua, rfl⟩, rfl, ?_⟩))
        unfold ProcessSwipe
        rw [if_neg hab, hga, hgb]
      | some ub =>
        by_cases hact : act = SwipeActionLike
        · cases hf : FindSwipe (AddSwipe s ⟨a, b, act, now⟩) b a with
          | some rsw =>
            by_cases hrl : rsw.action = SwipeActionLike
            · refine Or.inr (Or.inr (Or.inr (Or.inl
                ⟨hab, ⟨ua, rfl⟩, ⟨ub, rfl⟩, hact, ⟨rsw, rfl, hrl⟩, ?_⟩)))
              unfold ProcessSwipe
              rw [if_neg hab, hga, hgb]
              simp only []
              rw [if_pos hact, hf]
              simp only []
              rw [if_pos hrl]
            · refine Or.inr (Or.inr (Or.inr (Or.inr
                ⟨hab, ⟨ua, rfl⟩, ⟨ub, rfl⟩, ?_, ?_⟩)))
              · rintro ⟨-, rsw', hf', hrl'⟩
                cases hf'
                exact hrl hrl'
              · unfold ProcessSwipe
                rw [if_neg hab, hga, hgb]
                simp only []
                rw [if_pos hact, hf]
                simp only []
                rw [if_neg hrl]
          | none =>
            refine Or.inr (Or.inr (Or.inr (Or.inr
              ⟨hab, ⟨ua, rfl⟩, ⟨ub, rfl⟩, ?_, ?_⟩)))
            · rintro ⟨-, rsw', hf', -⟩
              simp at hf'
            · unfold ProcessSwipe
              rw [if_neg hab, hga, hgb]
              simp only []
              rw [if_pos hact, hf]
        · refine Or.inr (Or.inr (Or.inr (Or.inr
            ⟨hab, ⟨ua, rfl⟩, ⟨ub, rfl⟩, ?_, ?_⟩)))
          · rintro ⟨hact', -⟩
            exact hact hact'
          · unfold ProcessSwipe
            rw [if_neg hab, hga, hgb]
            simp only []
            rw [if_neg hact]

theorem matchSupported_mono {s t : InMemoryStore} {m : Match}
    (hsw : ∀ sw ∈ s.swipes, sw ∈ t.swipes)
    (hus : ∀ x : UUID, (∃ u ∈ s.users, u.id = x) → ∃ u ∈ t.users, u.id = x)
    (h : matchSupported s m) : matchSupported t m := by
  obtain ⟨⟨sw1, h1, h1a⟩, ⟨sw2, h2, h2a⟩, hu1, hu2⟩ := h
  exact ⟨⟨sw1, hsw sw1 h1, h1a⟩, ⟨sw2, hsw sw2 h2, h2a⟩, hus _ hu1, hus _ hu2⟩

theorem storeInvariant_applyOp (s : InMemoryStore) (op : Op)
    (h : storeInvariant s) : storeInvariant (applyOp s op) := by
  cases op with
  | addUser u =>
    intro m hm
    have hm' : m ∈ s.matchList := hm
    have base := h m hm'
    exact matchSupported_mono (s := s) (t := AddUser s u) (fun sw hsw => hsw)
      (fun x hx => exists_id_putUserList u hx) base
  | getFeed uid => exact h
  | matchesForUser uid => exact h
  | reset =>
    intro m hm
    exact absurd hm (List.not_mem_nil m)
  | processSwipe a b act now =>
    show storeInvariant (ProcessSwipe s a b act now).2
    rcases ProcessSwipe_cases s a b act now with ⟨-, hq⟩ | ⟨-, -, hq⟩ | ⟨-, -, -, hq⟩ |
      ⟨hne, ⟨ua, hga⟩, ⟨ub, hgb⟩, hact, ⟨rsw, hf, hrl⟩, hq⟩ | ⟨-, -, -, -, hq⟩
    · rw [hq]; exact h
    · rw [hq]; exact h
    · rw [hq]; exact h
    · rw [hq]
      intro m hm
      rcases List.mem_append.mp hm with hm' | hm'
      · exact matchSupported_mono (s := s)
          (t := AddMatch (AddSwipe s ⟨a, b, act, now⟩) ⟨a, b, now⟩)
          (fun sw hsw => List.mem_append_left _ hsw) (fun x hx => hx) (h m hm')
      · have hmeq : m = ⟨a, b, now⟩ := List.mem_singleton.mp hm'
        subst hmeq
        obtain ⟨hrmem, hrb, hra⟩ := FindSwipe_some_spec hf
        obtain ⟨hua_mem, hua_id⟩ := GetUser_some_mem hga
        obtain ⟨hub_mem, hub_id⟩ := GetUser_some_mem hgb
        refine ⟨⟨⟨a, b, act, now⟩, List.mem_append_right _ (List.mem_singleton.mpr rfl),
            rfl, rfl, hact⟩, ⟨rsw, hrmem, hrb, hra, hrl⟩, ⟨ua, hua_mem, hua_id⟩,
            ⟨ub, hub_mem, hub_id⟩⟩
    · rw [hq]
      intro m hm
      exact matchSupported_mono (s := s) (t := AddSwipe s ⟨a, b, act, now⟩)
        (fun sw hsw => List.mem_append_left _ hsw) (fun x hx => hx) (h m hm)

theorem storeInvariant_foldl (ops : List Op) :
    ∀ s : InMemoryStore, storeInvariant s → storeInvariant (ops.foldl applyOp s) := by
  induction ops with
  | nil => intro s h; exact h
  | cons op rest ih =>
    intro s h
    exact ih (applyOp s op) (storeInvariant_applyOp s op h)

/-! ### Claim theorems -/

/-- C3: ProcessSwipe applies its validation rules in fixed order with the
first failing rule winning: a self-swipe fails with the validation kind; an
unknown swiper then fails with the not-found kind naming the swiper; an
unknown swiped target then fails with the not-found kind naming it; and the
two error kinds are distinct. -/
theorem processSwipe_validation_order (s : InMemoryStore) (a b : UUID)
    (act : SwipeAction) (now : Nat) :
    (a = b →
      (ProcessSwipe s a b act now).1 =
        Except.error (ServiceError.validation "cannot swipe on yourself")) ∧
    (a ≠ b → GetUser s a = none →
      (ProcessSwipe s a b act now).1 =
        Except.error (ServiceError.notFound
          ("swiper user " ++ toString a ++ " not found"))) ∧
    (a ≠ b → (∃ ua, GetUser s a = some ua) → GetUser s b = none →
      (ProcessSwipe s a b act now).1 =
        Except.error (ServiceError.notFound
          ("swiped user " ++ toString b ++ " not found"))) ∧
    (∀ m m' : String, ServiceError.validation m ≠ ServiceError.notFound m') := by
  refine ⟨?_, ?_, ?_, fun m m' hc => ServiceError.noConfusion hc⟩
  · intro hab
    rcases ProcessSwipe_cases s a b act now with ⟨-, hq⟩ | ⟨hne, -, -⟩ | ⟨hne, -⟩ |
      ⟨hne, -⟩ | ⟨hne, -⟩
    · rw [hq]
    all_goals exact absurd hab hne
  · intro hab hga
    rcases ProcessSwipe_cases s a b act now with ⟨heq, -⟩ | ⟨-, -, hq⟩ |
      ⟨-, ⟨ua, hga'⟩, -⟩ | ⟨-, ⟨ua, hga'⟩, -⟩ | ⟨-, ⟨ua, hga'⟩, -⟩
    · exact absurd heq hab
    · rw [hq]
    all_goals rw [hga] at hga'; exact Option.noConfusion hga'
  · intro hab hex hgb
    rcases ProcessSwipe_cases s a b act now with ⟨heq, -⟩ | ⟨-, hga', -⟩ |
      ⟨-, -, -, hq⟩ | ⟨-, -, ⟨ub, hgb'⟩, -⟩ | ⟨-, -, ⟨ub, hgb'⟩, -⟩
    · exact absurd heq hab
    · obtain ⟨ua, hga⟩ := hex
      rw [hga] at hga'
      exact Option.noConfusion hga'
    · rw [hq]
    all_goals rw [hgb] at hgb'; exact Option.noConfusion hgb'

/-- Witness for C3: the three error branches observed at concrete inputs. -/
theorem processSwipe_validation_order_witness :
    (ProcessSwipe sAB 1 1 SwipeActionLike 0).1 =
      Except.error (ServiceError.validation "cannot swipe on yourself") ∧
    (ProcessSwipe sAB 4 5 SwipeActionLike 0).1 =
      Except.error (ServiceError.notFound
        ("swiper user " ++ toString (4 : UUID) ++ " not found")) ∧
    (ProcessSwipe sAB 1 5 SwipeActionLike 0).1 =
      Except.error (ServiceError.notFound
        ("swiped user " ++ toString (5 : UUID) ++ " not found")) :=
  ⟨(processSwipe_validation_order sAB 1 1 SwipeActionLike 0).1 rfl,
   (processSwipe_validation_order sAB 4 5 SwipeActionLike 0).2.1
     (by decide) (by decide),
   (processSwipe_validation_order sAB 1 5 SwipeActionLike 0).2.2.1
     (by decide) ⟨userA, by decide⟩ (by decide)⟩

/-- C4: whenever ProcessSwipe returns an error (self-swipe, unknown swiper
or unknown swiped), the store is left completely unchanged. -/
theorem processSwipe_error_no_side_effects (s : InMemoryStore) (a b : UUID)
    (act : SwipeAction) (now : Nat) (e : ServiceError)
    (h : (ProcessSwipe s a b act now).1 = Except.error e) :
    (ProcessSwipe s a b act now).2 = s := by
  rcases ProcessSwipe_cases s a b act now with ⟨-, hq⟩ | ⟨-, -, hq⟩ |
    ⟨-, -, -, hq⟩ | ⟨-, -, -, -, -, hq⟩ | ⟨-, -, -, -, hq⟩
  · rw [hq]
  · rw [hq]
  · rw [hq]
  · rw [hq] at h; exact absurd h (by simp)
  · rw [hq] at h; exact absurd h (by simp)

/-- Witness for C4: a concrete self-swipe fails and leaves the store as it
was. -/
theorem processSwipe_error_no_side_effects_witness :
    (ProcessSwipe sAB 1 1 SwipeActionLike 0).2 = sAB :=
  processSwipe_error_no_side_effects sAB 1 1 SwipeActionLike 0
    (ServiceError.validation "cannot swipe on yourself") rfl

/-- C5: in every store state reachable from the empty state by core
operations, every match is backed by both directed LIKE swipes and both
participant users. -/
theorem reachable_storeInvariant (s : InMemoryStore) (h : reachable s) :
    storeInvariant s := by
  obtain ⟨ops, rfl⟩ := h
  exact storeInvariant_foldl ops emptyStore
    (fun m hm => absurd hm (List.not_mem_nil m))

/-- Witness for C5: the invariant holds at the concrete state reached by
registering two users and completing a mutual LIKE. -/
theorem reachable_storeInvariant_witness :
    reachable (ProcessSwipe (ProcessSwipe sAB 1 2 SwipeActionLike 0).2
        2 1 SwipeActionLike 1).2 ∧
    storeInvariant (ProcessSwipe (ProcessSwipe sAB 1 2 SwipeActionLike 0).2
        2 1 SwipeActionLike 1).2 :=
  ⟨⟨[Op.addUser userA, Op.addUser userB, Op.processSwipe 1 2 SwipeActionLike 0,
      Op.processSwipe 2 1 SwipeActionLike 1], rfl⟩,
   reachable_storeInvariant _
     ⟨[Op.addUser userA, Op.addUser userB, Op.processSwipe 1 2 SwipeActionLike 0,
        Op.processSwipe 2 1 SwipeActionLike 1], rfl⟩⟩

/-! ### Feed characterization helpers -/

theorem seen_contains_iff (s : InMemoryStore) (u x : UUID) :
    (((GetSwipesByUser s u).map (fun sw => sw.swipedID)).contains x = true) ↔
      ∃ sw ∈ s.swipes, sw.swiperID = u ∧ sw.swipedID = x := by
  unfold GetSwipesByUser
  rw [List.contains_eq_any_beq]
  simp [List.any_eq_true, List.mem_filter, beq_iff_eq]
  constructor
  · rintro ⟨sw, ⟨hmem, hswiper⟩, hswiped⟩
    exact ⟨sw, hmem, hswiper, hswiped⟩
  · rintro ⟨sw, hmem, hswiper, hswiped⟩
    exact ⟨sw, ⟨hmem, hswiper⟩, hswiped⟩

theorem GetFeed_ok_mem_iff (s : InMemoryStore) (u : UUID) (requester : User)
    (h : GetUser s u = some requester) :
    ∃ l, GetFeed s u = Except.ok l ∧
      ∀ v : User, v ∈ l ↔
        (v ∈ s.users ∧ v.zoneID = requester.zoneID ∧ v.id ≠ u ∧
          ¬∃ sw ∈ s.swipes, sw.swiperID = u ∧ sw.swipedID = v.id) := by
  unfold GetFeed
  rw [h]
  simp only []
  refine ⟨_, rfl, ?_⟩
  intro v
  rw [List.mem_filter]
  unfold GetAllUsers
  constructor
  · rintro ⟨hmem, hp⟩
    simp only [Bool.and_eq_true, beq_iff_eq, bne_iff_ne, Bool.not_eq_true'] at hp
    obtain ⟨⟨hz, hne⟩, hseen⟩ := hp
    refine ⟨hmem, hz, hne, ?_⟩
    intro hex
    rw [← seen_contains_iff s u v.id] at hex
    rw [hseen] at hex
    cases hex
  · rintro ⟨hmem, hz, hne, hnoseen⟩
    refine ⟨hmem, ?_⟩
    simp only [Bool.and_eq_true, beq_iff_eq, bne_iff_ne, Bool.not_eq_true']
    refine ⟨⟨hz, hne⟩, ?_⟩
    rw [← seen_contains_iff s u v.id] at hnoseen
    exact Bool.eq_false_iff.mpr hnoseen

/-- C1: for every registered requester u, GetFeed(u) succeeds and returns
exactly the stored users v with v's zone equal to u's zone, v's identifier
different from u's, and no swipe u→v in the store. -/
theorem getFeed_returns_exactly_filtered (s : InMemoryStore) (u : UUID)
    (requester : User) (h : GetUser s u = some requester) :
    ∃ l, GetFeed s u = Except.ok l ∧
      ∀ v : User, v ∈ l ↔
        (v ∈ s.users ∧ v.zoneID = requester.zoneID ∧ v.id ≠ u ∧
          ¬∃ sw ∈ s.swipes, sw.swiperID = u ∧ sw.swipedID = v.id) :=
  GetFeed_ok_mem_iff s u requester h

/-- Witness for C1 at a concrete three-user store. -/
theorem getFeed_returns_exactly_filtered_witness :
    GetUser sABC 1 = some userA ∧
    ∃ l, GetFeed sABC 1 = Except.ok l ∧
      ∀ v : User, v ∈ l ↔
        (v ∈ sABC.users ∧ v.zoneID = userA.zoneID ∧ v.id ≠ 1 ∧
          ¬∃ sw ∈ sABC.swipes, sw.swiperID = 1 ∧ sw.swipedID = v.id) :=
  ⟨by decide, getFeed_returns_exactly_filtered sABC 1 userA (by decide)⟩

/-- C6 counterexample: GetFeed on an unknown identifier does fail, but the
error it returns is the plain `fmt.Errorf` value, not an instance of the
typed not-found kind, so the claimed typed, kind-distinguishable outcome is
refuted at this input. -/
theorem getFeed_error_untyped_counterexample :
    GetFeed emptyStore 7 =
      Except.error (ServiceError.basic
        ("user " ++ toString (7 : UUID) ++ " not found")) ∧
    feedErrorIsTypedNotFound (GetFeed emptyStore 7) = false :=
  ⟨rfl, rfl⟩

/-- C6 amended: GetFeed fails exactly when the requester is unknown — its
only error path — and that failure is the plain formatted error value
(`fmt.Errorf`), not the typed not-found kind. -/
theorem getFeed_error_paths (s : InMemoryStore) (u : UUID) :
    (GetUser s u = none →
      GetFeed s u = Except.error (ServiceError.basic
        ("user " ++ toString u ++ " not found"))) ∧
    (∀ requester, GetUser s u = some requester →
      ∃ l, GetFeed s u = Except.ok l) ∧
    (∀ e, GetFeed s u = Except.error e →
      GetUser s u = none ∧
      e = ServiceError.basic ("user " ++ toString u ++ " not found")) := by
  refine ⟨?_, ?_, ?_⟩
  · intro hnone
    unfold GetFeed
    rw [hnone]
  · intro requester hsome
    unfold GetFeed
    rw [hsome]
    exact ⟨_, rfl⟩
  · intro e he
    cases hg : GetUser s u with
    | none =>
      unfold GetFeed at he
      rw [hg] at he
      simp only [] at he
      refine ⟨rfl, ?_⟩
      exact (Except.error.inj he).symm
    | some requester =>
      unfold GetFeed at he
      rw [hg] at he
      simp only [] at he
      exact absurd he (by simp)

/-- Witness for C6's amended claim at a concrete unknown identifier and a
concrete registered requester. -/
theorem getFeed_error_paths_witness :
    GetFeed emptyStore 9 = Except.error (ServiceError.basic
      ("user " ++ toString (9 : UUID) ++ " not found")) ∧
    ∃ l, GetFeed sAB 1 = Except.ok l :=
  ⟨(getFeed_error_paths emptyStore 9).1 rfl,
   (getFeed_error_paths sAB 1).2.1 userA (by decide)⟩

/-- ProcessSwipe on an unknown swiper after distinct-id validation. -/
theorem ProcessSwipe_unknown_swiper {s : InMemoryStore} {a b : UUID}
    {act : SwipeAction} {now : Nat} (hne : a ≠ b) (hga : GetUser s a = none) :
    ProcessSwipe s a b act now =
      (Except.error (ServiceError.notFound
        ("swiper user " ++ toString a ++ " not found")), s) := by
  unfold ProcessSwipe
  rw [if_neg hne, hga]

/-- C8: Reset returns the store to the empty initial state: all three
collections are empty, and on the reset store GetFeed for a previously
registered requester fails with its requester-not-found error while
ProcessSwipe between two previously registered distinct users fails with
the not-found kind naming the swiper. -/
theorem reset_clears_store (s : InMemoryStore) (a b : UUID)
    (act : SwipeAction) (now : Nat) (ua ub : User)
    (ha : GetUser s a = some ua) (hb : GetUser s b = some ub) (hne : a ≠ b) :
    Reset s = emptyStore ∧
    (Reset s).users = [] ∧ (Reset s).swipes = [] ∧ (Reset s).matchList = [] ∧
    GetFeed (Reset s) a = Except.error (ServiceError.basic
      ("user " ++ toString a ++ " not found")) ∧
    (ProcessSwipe (Reset s) a b act now).1 =
      Except.error (ServiceError.notFound
        ("swiper user " ++ toString a ++ " not found")) := by
  refine ⟨rfl, rfl, rfl, rfl, rfl, ?_⟩
  have hnone : GetUser (Reset s) a = none := rfl
  rw [ProcessSwipe_unknown_swiper hne hnone]

/-- Witness for C8 at the concrete two-user store. -/
theorem reset_clears_store_witness :
    Reset sAB = emptyStore ∧
    (Reset sAB).users = [] ∧ (Reset sAB).swipes = [] ∧
    (Reset sAB).matchList = [] ∧
    GetFeed (Reset sAB) 1 = Except.error (ServiceError.basic
      ("user " ++ toString (1 : UUID) ++ " not found")) ∧
    (ProcessSwipe (Reset sAB) 1 2 SwipeActionLike 5).1 =
      Except.error (ServiceError.notFound
        ("swiper user " ++ toString (1 : UUID) ++ " not found")) :=
  reset_clears_store sAB 1 2 SwipeActionLike 5 userA userB
    (by decide) (by decide) (by decide)

/-! ### Swipe persistence across later operations -/

theorem swipes_applyOp_mono {s : InMemoryStore} {op : Op} (hop : op ≠ Op.reset)
    {sw : Swipe} (h : sw ∈ s.swipes) : sw ∈ (applyOp s op).swipes := by
  cases op with
  | addUser u => exact h
  | getFeed uid => exact h
  | matchesForUser uid => exact h
  | reset => exact absurd rfl hop
  | processSwipe a b act now =>
    show sw ∈ (ProcessSwipe s a b act now).2.swipes
    rcases ProcessSwipe_cases s a b act now with ⟨-, hq⟩ | ⟨-, -, hq⟩ |
      ⟨-, -, -, hq⟩ | ⟨-, -, -, -, -, hq⟩ | ⟨-, -, -, -, hq⟩
    · rw [hq]; exact h
    · rw [hq]; exact h
    · rw [hq]; exact h
    · rw [hq]; exact List.mem_append_left _ h
    · rw [hq]; exact List.mem_append_left _ h

theorem swipes_foldl_mono : ∀ ops : List Op, Op.reset ∉ ops →
    ∀ (s : InMemoryStore) (sw : Swipe),
      sw ∈ s.swipes → sw ∈ (ops.foldl applyOp s).swipes := by
  intro ops
  induction ops with
  | nil => intro _ s sw h; exact h
  | cons op rest ih =>
    intro hops s sw h
    have hop : op ≠ Op.reset := by
      intro hc
      subst hc
      exact hops (List.mem_cons_self _ _)
    have hrest : Op.reset ∉ rest := fun hc => hops (List.mem_cons_of_mem op hc)
    exact ih hrest (applyOp s op) sw (swipes_applyOp_mono hop h)

/-- C7: after a successful ProcessSwipe(A, B, LIKE), B is absent from every
subsequent GetFeed(A) in every later state reached without a Reset,
whatever operations happen in between. -/
theorem swiped_absent_from_future_feeds (s : InMemoryStore) (a b : UUID)
    (now : Nat) (res : ProcessSwipeResult) (t : InMemoryStore)
    (hok : ProcessSwipe s a b SwipeActionLike now = (Except.ok res, t))
    (ops : List Op) (hops : Op.reset ∉ ops)
    (l : List User) (hfeed : GetFeed (ops.foldl applyOp t) a = Except.ok l) :
    ∀ v ∈ l, v.id ≠ b := by
  have hsw : (⟨a, b, SwipeActionLike, now⟩ : Swipe) ∈ t.swipes := by
    rcases ProcessSwipe_cases s a b SwipeActionLike now with ⟨-, hq⟩ |
      ⟨-, -, hq⟩ | ⟨-, -, -, hq⟩ | ⟨-, -, -, -, -, hq⟩ | ⟨-, -, -, -, hq⟩
    · rw [hq] at hok
      exact absurd (congrArg Prod.fst hok) (by simp)
    · rw [hq] at hok
      exact absurd (congrArg Prod.fst hok) (by simp)
    · rw [hq] at hok
      exact absurd (congrArg Prod.fst hok) (by simp)
    · rw [hq] at hok
      have ht := congrArg Prod.snd hok
      simp only [] at ht
      rw [← ht]
      exact List.mem_append_right _ (List.mem_singleton.mpr rfl)
    · rw [hq] at hok
      have ht := congrArg Prod.snd hok
      simp only [] at ht
      rw [← ht]
      exact List.mem_append_right _ (List.mem_singleton.mpr rfl)
  have hsw2 : (⟨a, b, SwipeActionLike, now⟩ : Swipe) ∈
      (ops.foldl applyOp t).swipes :=
    swipes_foldl_mono ops hops t _ hsw
  cases hg : GetUser (ops.foldl applyOp t) a with
  | none =>
    unfold GetFeed at hfeed
    rw [hg] at hfeed
    exact absurd hfeed (by simp)
  | some requester =>
    obtain ⟨l2, hok2, hiff⟩ := GetFeed_ok_mem_iff _ a requester hg
    rw [hfeed] at hok2
    have hle : l2 = l := (Except.ok.inj hok2).symm
    subst hle
    intro v hv hvb
    have hchar := (hiff v).mp hv
    exact hchar.2.2.2 ⟨⟨a, b, SwipeActionLike, now⟩, hsw2, rfl, hvb.symm⟩

/-- Witness for C7: A likes B, then a fourth same-zone user registers; A's
feed in the resulting state is exactly that new user, and B's id is absent
from it. -/
theorem swiped_absent_from_future_feeds_witness :
    ProcessSwipe sAB 1 2 SwipeActionLike 0 =
      (Except.ok ⟨⟨1, 2, SwipeActionLike, 0⟩, false, none⟩,
       (ProcessSwipe sAB 1 2 SwipeActionLike 0).2) ∧
    Op.reset ∉ [Op.addUser userD] ∧
    GetFeed (([Op.addUser userD] : List Op).foldl applyOp
      (ProcessSwipe sAB 1 2 SwipeActionLike 0).2) 1 = Except.ok [userD] ∧
    ∀ v ∈ [userD], v.id ≠ 2 :=
  ⟨rfl, by decide, rfl,
   swiped_absent_from_future_feeds sAB 1 2 0
     ⟨⟨1, 2, SwipeActionLike, 0⟩, false, none⟩
     (ProcessSwipe sAB 1 2 SwipeActionLike 0).2 rfl
     [Op.addUser userD] (by decide) [userD] rfl⟩

/-! ### Match detection -/

/-- C2 counterexample: a swipe with swiper B, swiped A and action LIKE is
in the store, yet ProcessSwipe(A, B, LIKE) reports no match and persists no
match, because the earlier PASS from B to A is the swipe match detection
consults. -/
theorem processSwipe_match_iff_counterexample :
    (⟨2, 1, SwipeActionLike, 1⟩ : Swipe) ∈ sPassThenLike.swipes ∧
    (ProcessSwipe sPassThenLike 1 2 SwipeActionLike 2).1 =
      Except.ok ⟨⟨1, 2, SwipeActionLike, 2⟩, false, none⟩ ∧
    (ProcessSwipe sPassThenLike 1 2 SwipeActionLike 2).2.matchList = [] :=
  ⟨by decide, rfl, rfl⟩

/-- C2 amended: a successful ProcessSwipe(A, B, action) creates and
persists a match if and only if action is LIKE and the earliest swipe
B→A on record has action LIKE (the reverse lookup returns the first match
in append order); the claimed two-call scenarios from an empty history
hold as stated. -/
theorem processSwipe_match_iff :
    (∀ (s : InMemoryStore) (a b : UUID) (act : SwipeAction) (now : Nat),
      a ≠ b → (∃ ua, GetUser s a = some ua) → (∃ ub, GetUser s b = some ub) →
      ∃ res, (ProcessSwipe s a b act now).1 = Except.ok res ∧
        (res.matched = true ↔
          (act = SwipeActionLike ∧
            ∃ rsw, FindSwipe s b a = some rsw ∧
              rsw.action = SwipeActionLike)) ∧
        (res.matched = true →
          res.matchRec = some ⟨a, b, now⟩ ∧
          (ProcessSwipe s a b act now).2.matchList =
            s.matchList ++ [⟨a, b, now⟩]) ∧
        (res.matched = false →
          res.matchRec = none ∧
          (ProcessSwipe s a b act now).2.matchList = s.matchList)) ∧
    ((ProcessSwipe (ProcessSwipe sAB 1 2 SwipeActionLike 0).2
        2 1 SwipeActionLike 1).1 =
      Except.ok ⟨⟨2, 1, SwipeActionLike, 1⟩, true, some ⟨2, 1, 1⟩⟩ ∧
      GetMatchesForUser (ProcessSwipe (ProcessSwipe sAB 1 2 SwipeActionLike 0).2
        2 1 SwipeActionLike 1).2 1 = [⟨2, 1, 1⟩] ∧
      GetMatchesForUser (ProcessSwipe (ProcessSwipe sAB 1 2 SwipeActionLike 0).2
        2 1 SwipeActionLike 1).2 2 = [⟨2, 1, 1⟩]) ∧
    ((ProcessSwipe (ProcessSwipe sAB 1 2 SwipeActionLike 0).2
        2 1 SwipeActionPass 1).1 =
      Except.ok ⟨⟨2, 1, SwipeActionPass, 1⟩, false, none⟩ ∧
      GetMatchesForUser (ProcessSwipe (ProcessSwipe sAB 1 2 SwipeActionLike 0).2
        2 1 SwipeActionPass 1).2 1 = [] ∧
      GetMatchesForUser (ProcessSwipe (ProcessSwipe sAB 1 2 SwipeActionLike 0).2
        2 1 SwipeActionPass 1).2 2 = []) := by
  refine ⟨?_, ⟨rfl, by decide, by decide⟩, rfl, by decide, by decide⟩
  intro s a b act now hne hea heb
  have hshift : FindSwipe (AddSwipe s ⟨a, b, act, now⟩) b a = FindSwipe s b a :=
    FindSwipe_AddSwipe_of_ne (by rintro ⟨h1, -⟩; exact hne h1)
  rcases ProcessSwipe_cases s a b act now with ⟨heq, -⟩ | ⟨-, hga, -⟩ |
    ⟨-, -, hgb, -⟩ | ⟨-, -, -, hact, ⟨rsw, hf, hrl⟩, hq⟩ | ⟨-, -, -, hnm, hq⟩
  · exact absurd heq hne
  · obtain ⟨ua, hua⟩ := hea
    rw [hga] at hua
    exact Option.noConfusion hua
  · obtain ⟨ub, hub⟩ := heb
    rw [hgb] at hub
    exact Option.noConfusion hub
  · refine ⟨⟨⟨a, b, act, now⟩, true, some ⟨a, b, now⟩⟩, by rw [hq], ?_, ?_, ?_⟩
    · exact ⟨fun _ => ⟨hact, rsw, hshift ▸ hf, hrl⟩, fun _ => rfl⟩
    · intro _
      refine ⟨rfl, ?_⟩
      rw [hq]
      rfl
    · intro hfalse
      exact absurd hfalse (by simp)
  · refine ⟨⟨⟨a, b, act, now⟩, false, none⟩, by rw [hq], ?_, ?_, ?_⟩
    · constructor
      · intro htrue
        exact absurd htrue (by simp)
      · rintro ⟨hact2, rsw2, hf2, hrl2⟩
        exact absurd ⟨hact2, rsw2, hshift.symm ▸ hf2, hrl2⟩ hnm
    · intro htrue
      exact absurd htrue (by simp)
    · intro _
      refine ⟨rfl, ?_⟩
      rw [hq]
      rfl

/-- Witness for C2's amended claim: the first call of the mutual-LIKE
scenario does not match (no reverse swipe on record yet). -/
theorem processSwipe_match_iff_witness :
    ∃ res, (ProcessSwipe sAB 1 2 SwipeActionLike 0).1 = Except.ok res ∧
      (res.matched = true ↔
        (SwipeActionLike = SwipeActionLike ∧
          ∃ rsw, FindSwipe sAB 2 1 = some rsw ∧
            rsw.action = SwipeActionLike)) ∧
      (res.matched = true →
        res.matchRec = some ⟨1, 2, 0⟩ ∧
        (ProcessSwipe sAB 1 2 SwipeActionLike 0).2.matchList =
          sAB.matchList ++ [⟨1, 2, 0⟩]) ∧
      (res.matched = false →
        res.matchRec = none ∧
        (ProcessSwipe sAB 1 2 SwipeActionLike 0).2.matchList =
          sAB.matchList) :=
  processSwipe_match_iff.1 sAB 1 2 SwipeActionLike 0 (by decide)
    ⟨userA, by decide⟩ ⟨userB, by decide⟩

/-- C9: match detection consults only the earliest reverse swipe for the
ordered pair: a successful ProcessSwipe(A, B, LIKE) reports a match exactly
when the first B→A swipe in append order is a LIKE, regardless of any
later duplicate B→A swipes. -/
theorem match_uses_first_reverse_swipe (s : InMemoryStore) (a b : UUID)
    (now : Nat) (hne : a ≠ b)
    (hea : ∃ ua, GetUser s a = some ua) (heb : ∃ ub, GetUser s b = some ub)
    (rsw : Swipe) (hfirst : FindSwipe s b a = some rsw) :
    ∃ res, (ProcessSwipe s a b SwipeActionLike now).1 = Except.ok res ∧
      res.matched = (rsw.action == SwipeActionLike) := by
  have hshift : FindSwipe (AddSwipe s ⟨a, b, SwipeActionLike, now⟩) b a =
      FindSwipe s b a :=
    FindSwipe_AddSwipe_of_ne (by rintro ⟨h1, -⟩; exact hne h1)
  rcases ProcessSwipe_cases s a b SwipeActionLike now with ⟨heq, -⟩ |
    ⟨-, hga, -⟩ | ⟨-, -, hgb, -⟩ | ⟨-, -, -, -, ⟨rsw2, hf, hrl⟩, hq⟩ |
    ⟨-, -, -, hnm, hq⟩
  · exact absurd heq hne
  · obtain ⟨ua, hua⟩ := hea
    rw [hga] at hua
    exact Option.noConfusion hua
  · obtain ⟨ub, hub⟩ := heb
    rw [hgb] at hub
    exact Option.noConfusion hub
  · refine ⟨⟨⟨a, b, SwipeActionLike, now⟩, true, some ⟨a, b, now⟩⟩,
      by rw [hq], ?_⟩
    have hr2 : rsw2 = rsw := by
      rw [hshift, hfirst] at hf
      exact (Option.some.inj hf).symm
    subst hr2
    rw [hrl]
    rfl
  · refine ⟨⟨⟨a, b, SwipeActionLike, now⟩, false, none⟩, by rw [hq], ?_⟩
    have hrl : rsw.action ≠ SwipeActionLike := by
      intro hlike
      exact hnm ⟨rfl, rsw, hshift.symm ▸ hfirst, hlike⟩
    have : (rsw.action == SwipeActionLike) = false := by
      exact beq_eq_false_iff_ne.mpr hrl
    rw [this]

/-- Witness for C9: B LIKEd A first and then PASSed A; A's LIKE on B still
produces a match because the LIKE is the first reverse swipe on record. -/
theorem match_uses_first_reverse_swipe_witness :
    FindSwipe sLikeThenPass 2 1 = some ⟨2, 1, SwipeActionLike, 0⟩ ∧
    ∃ res, (ProcessSwipe sLikeThenPass 1 2 SwipeActionLike 2).1 =
        Except.ok res ∧
      res.matched =
        ((⟨2, 1, SwipeActionLike, 0⟩ : Swipe).action == SwipeActionLike) :=
  ⟨by decide,
   match_uses_first_reverse_swipe sLikeThenPass 1 2 2 (by decide)
     ⟨userA, by decide⟩ ⟨userB, by decide⟩
     ⟨2, 1, SwipeActionLike, 0⟩ (by decide)⟩

/-- C10: matches are not unique per user pair: after A and B mutually LIKE
(one match exists), a repeated ProcessSwipe(A, B, LIKE) creates and
persists a second match for the same unordered pair, so GetMatchesForUser
returns two matches involving the same two users. -/
theorem duplicate_matches_possible :
    (ProcessSwipe (ProcessSwipe (ProcessSwipe sAB 1 2 SwipeActionLike 0).2
        2 1 SwipeActionLike 1).2 1 2 SwipeActionLike 2).1 =
      Except.ok ⟨⟨1, 2, SwipeActionLike, 2⟩, true, some ⟨1, 2, 2⟩⟩ ∧
    GetMatchesForUser (ProcessSwipe (ProcessSwipe
        (ProcessSwipe sAB 1 2 SwipeActionLike 0).2
        2 1 SwipeActionLike 1).2 1 2 SwipeActionLike 2).2 1 =
      [⟨2, 1, 1⟩, ⟨1, 2, 2⟩] ∧
    GetMatchesForUser (ProcessSwipe (ProcessSwipe
        (ProcessSwipe sAB 1 2 SwipeActionLike 0).2
        2 1 SwipeActionLike 1).2 1 2 SwipeActionLike 2).2 2 =
      [⟨2, 1, 1⟩, ⟨1, 2, 2⟩] :=
  ⟨rfl, by decide, by decide⟩

end TinderSpec
